import Mathlib

/-
Shallow embedding of the sandbox_fastapi_demo authentication core:
  app/core/security.py   (password hashing, JWT issue/decode)
  app/api/deps.py        (user lookup, authenticate_user, get_current_user)
  app/api/routes/auth.py (login route)
  app/api/routes/users.py (create_user route)

Modelling conventions:
  - Time is a Nat of seconds since the epoch; a Python timedelta is a Nat
    of seconds (timedelta(minutes=m) is m * 60).
  - The JWT layer (python-jose) is idealised as a perfect MAC: a
    structurally well-formed token records its payload and the key its
    HMAC-SHA256 signature was computed with; verification compares that
    key with the configured secret.  An unparseable token string is the
    garbage constructor.  jose validates the signature first, then the
    exp claim; a missing exp claim is accepted, and a token is expired
    exactly when exp < now (leeway 0), as in jose.jwt._validate_exp.
  - The bcrypt layer (passlib CryptContext with schemes=["bcrypt"]) is
    idealised as a collision-free hash: a bcrypt hash records the salt
    and the password its digest was computed from, so that the verify
    recomputation can be expressed; a hash string that no configured
    scheme can identify is the unrecognized constructor, on which
    passlib raises an error instead of returning a boolean.
  - The SQLAlchemy user table is a List User; queries filtering on
    username return the first match.
  - FastAPI HTTPException is the http constructor of ApiError; an
    exception escaping from passlib is the passlibFailure constructor.
-/

namespace AuthDemo

/-- Claim values occurring in a JWT payload: the demo uses strings (the
subject) and integer timestamps (the expiry). -/
inductive JValue where
  | str (s : String)
  | num (n : Nat)
deriving DecidableEq, Repr

/-- A JWT payload, as the Python dict passed to jose.jwt.encode: an
association list from claim names to values. -/
abbrev Payload := List (String × JValue)

/-- Lookup of a claim by name, as Python dict.get: the first binding of
the key, if any. -/
def getClaim (p : Payload) (k : String) : Option JValue :=
  (p.find? (fun kv => kv.1 == k)).map (fun kv => kv.2)

/-- Wire form of a token string as seen by jose.jwt.decode: either a
structurally well-formed JWT carrying a payload and recording the key its
HMAC-SHA256 signature was computed with (idealised perfect MAC), or an
unparseable string. -/
inductive TokenWire where
  | signed (payload : Payload) (sigKey : String)
  | garbage (raw : String)
deriving DecidableEq, Repr

/-- Failures of jose.jwt.decode, all subclasses of JWTError: signature
mismatch, expired signature, claims that cannot be validated (a
non-integer exp), and a token whose structure cannot be parsed. -/
inductive JWTError where
  | invalidSignature
  | expired
  | claimsError
  | malformedToken
deriving DecidableEq, Repr

/-- Process environment as read by app/core/security.py: the optional
SECRET_KEY variable and the optional ACCESS_TOKEN_EXPIRE_MINUTES variable
(the latter already converted by int). -/
structure Env where
  secret_key_var : Option String
  access_token_expire_minutes_var : Option Nat
deriving DecidableEq, Repr

/-- SECRET_KEY = os.getenv("SECRET_KEY", "change-this-in-env"). -/
def SECRET_KEY (env : Env) : String :=
  env.secret_key_var.getD "change-this-in-env"

/-- ACCESS_TOKEN_EXPIRE_MINUTES = int(os.getenv("ACCESS_TOKEN_EXPIRE_MINUTES", "30")). -/
def ACCESS_TOKEN_EXPIRE_MINUTES (env : Env) : Nat :=
  env.access_token_expire_minutes_var.getD 30

/-- Python truthiness applied to an optional timedelta, as in the
expression expires_delta or d of create_access_token: both None and a
zero timedelta are falsy, so the default d is used in both cases, and a
nonzero timedelta is returned unchanged. -/
def orDefault (expires_delta : Option Nat) (d : Nat) : Nat :=
  match expires_delta with
  | none => d
  | some t => if t = 0 then d else t

/-- create_access_token(subject, expires_delta): expire = now +
(expires_delta or timedelta(minutes=ACCESS_TOKEN_EXPIRE_MINUTES)), where
the Python or falls back to the configured default not only when
expires_delta is None but also when it is the falsy timedelta(0); the
claim set is the dict with exactly sub = subject and exp = expire, signed
with SECRET_KEY. -/
def create_access_token (env : Env) (now : Nat) (subject : String)
    (expires_delta : Option Nat) : TokenWire :=
  let expire := now + orDefault expires_delta (ACCESS_TOKEN_EXPIRE_MINUTES env * 60)
  .signed [("sub", .str subject), ("exp", .num expire)] (SECRET_KEY env)

/-- Claim validation of jose.jwt.decode after the signature check: the
exp claim, when present, must be an integer (else a claims error) not
smaller than the current time (else the token is expired); a payload
without an exp claim is accepted. -/
def validate_claims (now : Nat) (payload : Payload) : Except JWTError Payload :=
  match getClaim payload "exp" with
  | none => .ok payload
  | some (.str _) => .error .claimsError
  | some (.num e) => if e < now then .error .expired else .ok payload

/-- decode_token(token) = jose.jwt.decode(token, SECRET_KEY, [HS256]):
an unparseable token is a malformed-token failure; a signature computed
with a key other than SECRET_KEY is an invalid-signature failure;
otherwise the claims are validated and the payload is returned. -/
def decode_token (env : Env) (now : Nat) (token : TokenWire) :
    Except JWTError Payload :=
  match token with
  | .garbage _ => .error .malformedToken
  | .signed payload sigKey =>
    if sigKey = SECRET_KEY env then validate_claims now payload
    else .error .invalidSignature

/-- Result of passlib CryptContext hashing, idealised as collision-free:
a bcrypt hash records the salt and the password its digest was computed
from (the real digest is a one-way function of the two; the model keeps
the pair so that the verify recomputation can be expressed); a hash
string no configured scheme can identify is unrecognized. -/
inductive Hash where
  | bcrypt (salt : Nat) (of : String)
  | unrecognized (raw : String)
deriving DecidableEq, Repr

/-- Error raised by passlib when the hash string cannot be identified by
any configured scheme (ValueError: hash could not be identified). -/
inductive PasslibError where
  | unknownHash
deriving DecidableEq, Repr

/-- hash_password(password) = pwd_context.hash(password): a bcrypt hash
of the password under a fresh random salt; the randomness is made
explicit as the salt argument. -/
def hash_password (salt : Nat) (password : String) : Hash :=
  .bcrypt salt password

/-- verify_password(plain, hashed) = pwd_context.verify(plain, hashed):
for a bcrypt hash, recompute the digest with the embedded salt and
compare (constant time), returning a boolean; for an unidentifiable hash
string, passlib raises instead of returning false. -/
def verify_password (plain_password : String) (hashed_password : Hash) :
    Except PasslibError Bool :=
  match hashed_password with
  | .bcrypt _ of => .ok (plain_password == of)
  | .unrecognized _ => .error .unknownHash

/-- Modular-crypt textual rendering of a hash, as stored in the
hashed_password column: scheme and cost prefix, then salt, then the
idealised digest. -/
def Hash.render : Hash → String
  | .bcrypt salt of => "$2b$12$" ++ toString salt ++ "$" ++ of
  | .unrecognized raw => raw

/-- Row of the user table (app/models/user.py, referenced by the routes):
integer primary key, unique username, bcrypt password hash. -/
structure User where
  id : Nat
  username : String
  hashed_password : Hash
deriving DecidableEq, Repr

/-- get_user_by_username(db, username) =
db.query(User).filter(User.username == username).first(). -/
def get_user_by_username (db : List User) (username : String) : Option User :=
  db.find? (fun u => u.username == username)

/-- Request-level failures: an HTTPException with its status code and
detail message, or an exception escaping from passlib. -/
inductive ApiError where
  | http (status : Nat) (detail : String)
  | passlibFailure
deriving DecidableEq, Repr

/-- authenticate_user(db, username, password): None when the username is
absent or the password does not verify against the stored hash, the user
otherwise; an error raised by verify_password propagates. -/
def authenticate_user (db : List User) (username password : String) :
    Except PasslibError (Option User) :=
  match get_user_by_username db username with
  | none => .ok none
  | some user =>
    match verify_password password user.hashed_password with
    | .error e => .error e
    | .ok true => .ok (some user)
    | .ok false => .ok none

/-- Response body of the login route (schemas.user.Token). -/
structure TokenResponse where
  access_token : TokenWire
  token_type : String
deriving DecidableEq, Repr

/-- login route (POST /token): authenticate; on failure raise
HTTPException 401 with a generic message; on success issue a token for
the user with expires_delta = timedelta(minutes=ACCESS_TOKEN_EXPIRE_MINUTES). -/
def login (env : Env) (now : Nat) (db : List User)
    (username password : String) : Except ApiError TokenResponse :=
  match authenticate_user db username password with
  | .error _ => .error .passlibFailure
  | .ok none => .error (.http 401 "Incorrect username or password")
  | .ok (some user) =>
    .ok { access_token :=
            create_access_token env now user.username
              (some (ACCESS_TOKEN_EXPIRE_MINUTES env * 60)),
          token_type := "bearer" }

/-- get_current_user(token, db): decode the token, any JWTError becoming
HTTPException 401; a payload whose sub claim is absent is HTTPException
401 before any store access; otherwise the subject is looked up in the
user table (a non-string subject value compared against the string
username column matches no row) and a missing user is HTTPException 404. -/
def get_current_user (env : Env) (now : Nat) (db : List User)
    (token : TokenWire) : Except ApiError User :=
  match decode_token env now token with
  | .error _ => .error (.http 401 "Invalid or expired token")
  | .ok payload =>
    match getClaim payload "sub" with
    | none => .error (.http 401 "Invalid token payload")
    | some (.num _) => .error (.http 404 "User not found")
    | some (.str username) =>
      match get_user_by_username db username with
      | none => .error (.http 404 "User not found")
      | some user => .ok user

/-- Request body of the registration route (schemas.user.UserCreate). -/
structure UserCreate where
  username : String
  password : String
deriving DecidableEq, Repr

/-- create_user route (POST /users): reject an existing username with
HTTPException 400 leaving the table unchanged; otherwise insert a row
with the hashed password (the database assigning the id, made explicit
as nextId, and the salt drawn fresh) and return it with status 201.  The
result pairs the response with the table after the request. -/
def create_user (salt nextId : Nat) (db : List User) (payload : UserCreate) :
    Except ApiError User × List User :=
  match get_user_by_username db payload.username with
  | some _ => (.error (.http 400 "Username already taken"), db)
  | none =>
    let user : User :=
      { id := nextId, username := payload.username,
        hashed_password := hash_password salt payload.password }
    (.ok user, db ++ [user])

/-- Reduction of decode_token on a structurally well-formed token whose
signature was computed with the configured secret: the signature check
passes and claim validation runs. -/
theorem decode_token_signed (env : Env) (now : Nat) (payload : Payload) :
    decode_token env now (.signed payload (SECRET_KEY env)) =
      validate_claims now payload := by
  unfold decode_token
  exact if_pos rfl

/-- Reduction of claim validation on the exact payload produced by
create_access_token. -/
theorem validate_claims_sub_exp (now e : Nat) (s : String) :
    validate_claims now [("sub", .str s), ("exp", .num e)] =
      if e < now then .error .expired
      else .ok [("sub", .str s), ("exp", .num e)] :=
  rfl

/-- C1: a token produced by create_access_token with subject s and ttl,
decoded with decode_token at a time strictly before the embedded expiry,
yields a payload whose sub claim is s; decoded at a time strictly after
that expiry it fails with the expired error instead of returning the
subject.  The embedded expiry is t0 + ttl for a nonzero ttl, and t0 plus
the configured default when ttl is the falsy timedelta(0), as the Python
or in create_access_token computes. -/
theorem C1_token_round_trip (env : Env) (s : String) (ttl t0 t1 t2 : Nat)
    (h1 : t1 < t0 + orDefault (some ttl) (ACCESS_TOKEN_EXPIRE_MINUTES env * 60))
    (h2 : t0 + orDefault (some ttl) (ACCESS_TOKEN_EXPIRE_MINUTES env * 60) < t2) :
    (decode_token env t1 (create_access_token env t0 s (some ttl)) =
        .ok [("sub", .str s),
          ("exp", .num (t0 + orDefault (some ttl) (ACCESS_TOKEN_EXPIRE_MINUTES env * 60)))] ∧
      getClaim [("sub", .str s),
          ("exp", .num (t0 + orDefault (some ttl) (ACCESS_TOKEN_EXPIRE_MINUTES env * 60)))]
        "sub" = some (.str s)) ∧
    decode_token env t2 (create_access_token env t0 s (some ttl)) =
      .error .expired := by
  refine ⟨⟨?_, rfl⟩, ?_⟩
  · show decode_token env t1
      (.signed [("sub", .str s),
        ("exp", .num (t0 + orDefault (some ttl) (ACCESS_TOKEN_EXPIRE_MINUTES env * 60)))]
        (SECRET_KEY env)) = _
    rw [decode_token_signed, validate_claims_sub_exp, if_neg (by omega)]
  · show decode_token env t2
      (.signed [("sub", .str s),
        ("exp", .num (t0 + orDefault (some ttl) (ACCESS_TOKEN_EXPIRE_MINUTES env * 60)))]
        (SECRET_KEY env)) = _
    rw [decode_token_signed, validate_claims_sub_exp, if_pos h2]

/-- C1 witness: the round trip at a concrete key, subject, ttl and pair
of decode times on either side of the embedded expiry. -/
theorem C1_token_round_trip_witness :
    (decode_token ⟨some "k", none⟩ 30
        (create_access_token ⟨some "k", none⟩ 0 "alice" (some 60)) =
        .ok [("sub", .str "alice"),
          ("exp", .num (0 + orDefault (some 60)
            (ACCESS_TOKEN_EXPIRE_MINUTES ⟨some "k", none⟩ * 60)))] ∧
      getClaim [("sub", .str "alice"),
          ("exp", .num (0 + orDefault (some 60)
            (ACCESS_TOKEN_EXPIRE_MINUTES ⟨some "k", none⟩ * 60)))]
        "sub" = some (.str "alice")) ∧
    decode_token ⟨some "k", none⟩ 100
      (create_access_token ⟨some "k", none⟩ 0 "alice" (some 60)) =
      .error .expired :=
  C1_token_round_trip ⟨some "k", none⟩ "alice" 60 0 30 100 (by decide) (by decide)

/-- C2: get_current_user fails with HTTP 401 whenever decode_token fails;
when decoding succeeds with a subject naming no stored user it fails with
the distinct HTTP 404; when the subject names a stored user it returns
that user. -/
theorem C2_identity_resolution (env : Env) (now : Nat) (db : List User)
    (token : TokenWire) :
    (∀ e, decode_token env now token = .error e →
      get_current_user env now db token =
        .error (.http 401 "Invalid or expired token")) ∧
    (∀ payload u, decode_token env now token = .ok payload →
      getClaim payload "sub" = some (.str u) →
      get_user_by_username db u = none →
      get_current_user env now db token =
        .error (.http 404 "User not found")) ∧
    (∀ payload u user, decode_token env now token = .ok payload →
      getClaim payload "sub" = some (.str u) →
      get_user_by_username db u = some user →
      get_current_user env now db token = .ok user) := by
  refine ⟨fun e he => ?_, fun payload u hok hsub hnone => ?_,
    fun payload u user hok hsub hsome => ?_⟩
  · unfold get_current_user; simp only [he]
  · unfold get_current_user; simp only [hok, hsub, hnone]
  · unfold get_current_user; simp only [hok, hsub, hsome]

/-- C2 witness: all three stages at concrete inputs — a garbage token is
401, a valid token for an absent user is 404, and a valid token for a
stored user returns that user. -/
theorem C2_identity_resolution_witness :
    get_current_user ⟨some "k", none⟩ 0 [] (.garbage "xx") =
      .error (.http 401 "Invalid or expired token") ∧
    get_current_user ⟨some "k", none⟩ 0 [] (.signed [("sub", .str "bob")] "k") =
      .error (.http 404 "User not found") ∧
    get_current_user ⟨some "k", none⟩ 0 [⟨1, "bob", hash_password 0 "pw"⟩]
      (.signed [("sub", .str "bob")] "k") = .ok ⟨1, "bob", hash_password 0 "pw"⟩ :=
  ⟨(C2_identity_resolution ⟨some "k", none⟩ 0 [] (.garbage "xx")).1
      .malformedToken rfl,
   (C2_identity_resolution ⟨some "k", none⟩ 0 [] (.signed [("sub", .str "bob")] "k")).2.1
      [("sub", .str "bob")] "bob" rfl rfl rfl,
   (C2_identity_resolution ⟨some "k", none⟩ 0 [⟨1, "bob", hash_password 0 "pw"⟩]
      (.signed [("sub", .str "bob")] "k")).2.2
      [("sub", .str "bob")] "bob" ⟨1, "bob", hash_password 0 "pw"⟩ rfl rfl rfl⟩

/-- C3: when the username is absent, and when the user exists but the
password does not verify against the stored hash, authenticate_user
returns the same value (Ok none, the embedding of None) and the login
route returns the same HTTP 401 response with the same generic message. -/
theorem C3_login_undifferentiated (env : Env) (now : Nat) (db : List User)
    (username password : String) :
    (get_user_by_username db username = none →
      authenticate_user db username password = .ok none ∧
      login env now db username password =
        .error (.http 401 "Incorrect username or password")) ∧
    (∀ user, get_user_by_username db username = some user →
      verify_password password user.hashed_password = .ok false →
      authenticate_user db username password = .ok none ∧
      login env now db username password =
        .error (.http 401 "Incorrect username or password")) := by
  constructor
  · intro h
    have ha : authenticate_user db username password = .ok none := by
      unfold authenticate_user; simp only [h]
    exact ⟨ha, by unfold login; simp only [ha]⟩
  · intro user h hv
    have ha : authenticate_user db username password = .ok none := by
      unfold authenticate_user; simp only [h, hv]
    exact ⟨ha, by unfold login; simp only [ha]⟩

/-- C3 witness: the absent-user case and the wrong-password case at
concrete inputs both produce the identical failure value and the
identical 401 response. -/
theorem C3_login_undifferentiated_witness :
    (authenticate_user [] "alice" "pw" = .ok none ∧
      login ⟨some "k", none⟩ 0 [] "alice" "pw" =
        .error (.http 401 "Incorrect username or password")) ∧
    (authenticate_user [⟨1, "alice", hash_password 0 "right"⟩] "alice" "wrong" =
        .ok none ∧
      login ⟨some "k", none⟩ 0 [⟨1, "alice", hash_password 0 "right"⟩]
        "alice" "wrong" =
        .error (.http 401 "Incorrect username or password")) :=
  ⟨(C3_login_undifferentiated ⟨some "k", none⟩ 0 [] "alice" "pw").1 rfl,
   (C3_login_undifferentiated ⟨some "k", none⟩ 0
      [⟨1, "alice", hash_password 0 "right"⟩] "alice" "wrong").2
      ⟨1, "alice", hash_password 0 "right"⟩ rfl rfl⟩

/-- C4: a password verifies against its own hash, and a different
password fails to verify against that hash (in the idealised
collision-free model of bcrypt, certainly rather than with overwhelming
probability). -/
theorem C4_password_round_trip (salt : Nat) (p p1 p2 : String) (h : p1 ≠ p2) :
    verify_password p (hash_password salt p) = .ok true ∧
    verify_password p1 (hash_password salt p2) = .ok false := by
  constructor
  · simp [verify_password, hash_password]
  · simp [verify_password, hash_password, h]

/-- C4 witness: the round trip at a concrete salt and pair of distinct
passwords. -/
theorem C4_password_round_trip_witness :
    verify_password "a" (hash_password 5 "a") = .ok true ∧
    verify_password "a" (hash_password 5 "b") = .ok false :=
  C4_password_round_trip 5 "a" "a" "b" (by decide)

/-- Characterisation of create_access_token on a nonzero ttl, where the
Python or returns the supplied timedelta itself. -/
theorem create_access_token_pos (env : Env) (now : Nat) (s : String)
    (ttl : Nat) (h : ttl ≠ 0) :
    create_access_token env now s (some ttl) =
      .signed [("sub", .str s), ("exp", .num (now + ttl))] (SECRET_KEY env) := by
  unfold create_access_token orDefault
  simp [h]

/-- C5 counterexample: with no SECRET_KEY in the environment the code
proceeds, silently substituting the built-in fallback string
"change-this-in-env" as the key used to sign and verify tokens, contrary
to the claim that no such fallback is substituted. -/
theorem C5_counterexample :
    SECRET_KEY ⟨none, none⟩ = "change-this-in-env" ∧
    decode_token ⟨none, none⟩ 0
      (create_access_token ⟨none, none⟩ 0 "alice" (some 60)) =
      .ok [("sub", .str "alice"), ("exp", .num 60)] :=
  ⟨rfl, rfl⟩

/-- C5 amended: when no SECRET_KEY is provided in the environment at
startup, the service proceeds using the built-in fallback value
"change-this-in-env" as the key, and tokens are signed and verified with
that fallback (stated for a nonzero ttl, where the embedded expiry is
now + ttl). -/
theorem C5_secret_key_fallback (env : Env) (now : Nat) (s : String) (ttl : Nat)
    (h : env.secret_key_var = none) (httl : ttl ≠ 0) :
    SECRET_KEY env = "change-this-in-env" ∧
    decode_token env now (create_access_token env now s (some ttl)) =
      .ok [("sub", .str s), ("exp", .num (now + ttl))] := by
  refine ⟨by simp [SECRET_KEY, h], ?_⟩
  rw [create_access_token_pos env now s ttl httl]
  rw [decode_token_signed, validate_claims_sub_exp, if_neg (by omega)]

/-- C5 amended witness: the fallback key at a concrete environment with
no SECRET_KEY set. -/
theorem C5_secret_key_fallback_witness :
    SECRET_KEY ⟨none, some 15⟩ = "change-this-in-env" ∧
    decode_token ⟨none, some 15⟩ 7
      (create_access_token ⟨none, some 15⟩ 7 "alice" (some 60)) =
      .ok [("sub", .str "alice"), ("exp", .num (7 + 60))] :=
  C5_secret_key_fallback ⟨none, some 15⟩ 7 "alice" 60 rfl (by decide)

/-- C6 counterexample: at the falsy ttl of zero the expiry is not
now + ttl = 0 but now plus the configured default of 30 minutes, because
the Python expression expires_delta or timedelta(minutes=30) discards a
zero timedelta. -/
theorem C6_counterexample :
    create_access_token ⟨some "k", none⟩ 0 "alice" (some 0) ≠
      .signed [("sub", .str "alice"), ("exp", .num 0)] "k" ∧
    create_access_token ⟨some "k", none⟩ 0 "alice" (some 0) =
      .signed [("sub", .str "alice"), ("exp", .num 1800)] "k" := by
  refine ⟨?_, rfl⟩
  decide

/-- C6 amended: for a nonzero ttl the signed claim set is exactly sub = s
and exp = now + ttl and nothing else; with no ttl supplied, or with the
falsy zero ttl, the expiry is now plus the configured
ACCESS_TOKEN_EXPIRE_MINUTES, whose default when the environment does not
set it is 30 minutes. -/
theorem C6_token_content (env : Env) (now : Nat) (s : String) (ttl : Nat)
    (h : ttl ≠ 0) :
    create_access_token env now s (some ttl) =
      .signed [("sub", .str s), ("exp", .num (now + ttl))] (SECRET_KEY env) ∧
    create_access_token env now s none =
      .signed [("sub", .str s),
        ("exp", .num (now + ACCESS_TOKEN_EXPIRE_MINUTES env * 60))]
        (SECRET_KEY env) ∧
    create_access_token env now s (some 0) =
      .signed [("sub", .str s),
        ("exp", .num (now + ACCESS_TOKEN_EXPIRE_MINUTES env * 60))]
        (SECRET_KEY env) ∧
    ACCESS_TOKEN_EXPIRE_MINUTES ⟨env.secret_key_var, none⟩ = 30 :=
  ⟨create_access_token_pos env now s ttl h, rfl, rfl, rfl⟩

/-- C6 amended witness: the claim set at a concrete nonzero ttl, and the
default and falsy-zero fallbacks at the same concrete environment. -/
theorem C6_token_content_witness :
    create_access_token ⟨some "k", none⟩ 5 "alice" (some 60) =
      .signed [("sub", .str "alice"), ("exp", .num (5 + 60))]
        (SECRET_KEY ⟨some "k", none⟩) ∧
    create_access_token ⟨some "k", none⟩ 5 "alice" none =
      .signed [("sub", .str "alice"),
        ("exp", .num (5 + ACCESS_TOKEN_EXPIRE_MINUTES ⟨some "k", none⟩ * 60))]
        (SECRET_KEY ⟨some "k", none⟩) ∧
    create_access_token ⟨some "k", none⟩ 5 "alice" (some 0) =
      .signed [("sub", .str "alice"),
        ("exp", .num (5 + ACCESS_TOKEN_EXPIRE_MINUTES ⟨some "k", none⟩ * 60))]
        (SECRET_KEY ⟨some "k", none⟩) ∧
    ACCESS_TOKEN_EXPIRE_MINUTES ⟨some "k", none⟩ = 30 :=
  C6_token_content ⟨some "k", none⟩ 5 "alice" 60 (by decide)

/-- C7: registering an already-present username fails with HTTP 400 and
leaves the user table unchanged; registering a fresh username inserts a
row whose password field is the salted hash, whose rendering is not the
plaintext password, and returns the new id and username. -/
theorem C7_registration (salt nextId : Nat) (db : List User)
    (payload : UserCreate) :
    (∀ u, get_user_by_username db payload.username = some u →
      create_user salt nextId db payload =
        (.error (.http 400 "Username already taken"), db)) ∧
    (get_user_by_username db payload.username = none →
      create_user salt nextId db payload =
        (.ok ⟨nextId, payload.username, hash_password salt payload.password⟩,
          db ++ [⟨nextId, payload.username, hash_password salt payload.password⟩]) ∧
      Hash.render (hash_password salt payload.password) ≠ payload.password) := by
  constructor
  · intro u h
    unfold create_user; simp only [h]
  · intro h
    refine ⟨by unfold create_user; simp only [h], ?_⟩
    intro heq
    have hlen := congrArg String.length heq
    have h7 : ("$2b$12$" : String).length = 7 := rfl
    have h1 : ("$" : String).length = 1 := rfl
    simp only [Hash.render, hash_password, String.length_append, h7, h1] at hlen
    omega

/-- C7 witness: both registration outcomes at concrete inputs — the
fresh username is inserted hashed, and re-registering it is rejected
with 400 leaving the table as it was. -/
theorem C7_registration_witness :
    (create_user 7 1 [] ⟨"alice", "pw"⟩ =
      (.ok ⟨1, "alice", hash_password 7 "pw"⟩,
        [⟨1, "alice", hash_password 7 "pw"⟩]) ∧
      Hash.render (hash_password 7 "pw") ≠ "pw") ∧
    create_user 8 2 [⟨1, "alice", hash_password 7 "pw"⟩] ⟨"alice", "other"⟩ =
      (.error (.http 400 "Username already taken"),
        [⟨1, "alice", hash_password 7 "pw"⟩]) :=
  ⟨(C7_registration 7 1 [] ⟨"alice", "pw"⟩).2 rfl,
   (C7_registration 8 2 [⟨1, "alice", hash_password 7 "pw"⟩] ⟨"alice", "other"⟩).1
      ⟨1, "alice", hash_password 7 "pw"⟩ rfl⟩

/-- C8: a well-formed bcrypt hash that does not match the plaintext makes
verify_password return false without raising, while a hash string no
scheme can identify makes it raise the distinct unknown-hash error
rather than return false. -/
theorem C8_hash_verification_errors (p : String) (salt : Nat) (q raw : String)
    (h : p ≠ q) :
    verify_password p (.bcrypt salt q) = .ok false ∧
    verify_password p (.unrecognized raw) = .error .unknownHash := by
  constructor
  · simp [verify_password, h]
  · rfl

/-- C8 witness: the mismatch and the malformed-hash error at concrete
inputs. -/
theorem C8_hash_verification_errors_witness :
    verify_password "a" (.bcrypt 0 "b") = .ok false ∧
    verify_password "a" (.unrecognized "zzz") = .error .unknownHash :=
  C8_hash_verification_errors "a" 0 "b" "zzz" (by decide)

/-- C9: hashing the same password under two distinct fresh salts yields
two distinct hashes, each of which verifies against the password. -/
theorem C9_salt_freshness (p : String) (s1 s2 : Nat) (h : s1 ≠ s2) :
    hash_password s1 p ≠ hash_password s2 p ∧
    verify_password p (hash_password s1 p) = .ok true ∧
    verify_password p (hash_password s2 p) = .ok true := by
  refine ⟨?_, ?_, ?_⟩
  · simp [hash_password, h]
  · simp [verify_password, hash_password]
  · simp [verify_password, hash_password]

/-- C9 witness: two concrete salts for the same password. -/
theorem C9_salt_freshness_witness :
    hash_password 0 "a" ≠ hash_password 1 "a" ∧
    verify_password "a" (hash_password 0 "a") = .ok true ∧
    verify_password "a" (hash_password 1 "a") = .ok true :=
  C9_salt_freshness "a" 0 1 (by decide)

/-- C10: a token that decodes successfully but whose payload carries no
sub claim makes get_current_user fail with HTTP 401 before any store
lookup — never with the 404 user-not-found error and never with an
identity. -/
theorem C10_missing_subject (env : Env) (now : Nat) (db : List User)
    (token : TokenWire) (payload : Payload)
    (hok : decode_token env now token = .ok payload)
    (hsub : getClaim payload "sub" = none) :
    get_current_user env now db token =
      .error (.http 401 "Invalid token payload") := by
  unfold get_current_user; simp only [hok, hsub]

/-- C10 witness: a concrete well-signed unexpired token with only an exp
claim, presented against a non-empty user table. -/
theorem C10_missing_subject_witness :
    get_current_user ⟨some "k", none⟩ 0 [⟨1, "alice", hash_password 0 "pw"⟩]
      (.signed [("exp", .num 100)] "k") =
      .error (.http 401 "Invalid token payload") :=
  C10_missing_subject ⟨some "k", none⟩ 0 [⟨1, "alice", hash_password 0 "pw"⟩]
    (.signed [("exp", .num 100)] "k") [("exp", .num 100)] rfl rfl

end AuthDemo
